import Mathlib

/-!
Shallow embedding of the account-pool scheduler and media-collection
orchestrator of the instagram-api-extractor repository.

Conventions of the embedding:
* instants of time are rationals counting hours since an arbitrary epoch;
  `datetime.now()` becomes an explicit `now : ℚ` parameter,
  `timedelta(minutes=m)` becomes `m / 60` hours, and
  `(a - b).total_seconds() / 3600` becomes `a - b`;
* Python floats are modelled as exact rationals;
* the calendar day of an instant is `⌊t / 24⌋`;
* external network effects (instagrapi calls) are oracle parameters;
* file persistence is modelled by a `saves` counter on the pool state and,
  for the round-trip claim, by an explicit wire snapshot type.
-/

namespace InstagramExtractor

/-- `AccountStatus` from `app/models.py`: the five statuses of an account. -/
inductive AccountStatus where
  | active
  | cooldown
  | dead
  | challenge
  | login_required
deriving DecidableEq, Repr

/-- The string value carried by each `AccountStatus` member (it is a `str` enum). -/
def statusValue : AccountStatus → String
  | .active => "active"
  | .cooldown => "cooldown"
  | .dead => "dead"
  | .challenge => "challenge"
  | .login_required => "login_required"

/-- Parsing a status string back into the enum, as pydantic does when a pool
file is loaded; an unknown value is a validation error (`none`). -/
def statusOfValue : String → Option AccountStatus
  | "active" => some .active
  | "cooldown" => some .cooldown
  | "dead" => some .dead
  | "challenge" => some .challenge
  | "login_required" => some .login_required
  | _ => none

/-- Looking up a member of the `AccountStatus` enum class by attribute NAME,
as the Python expression `AccountStatus.X` does; a name that is not a member
raises `AttributeError`, modelled by `none`. The five names below are exactly
the members declared in `app/models.py`. -/
def accountStatusAttr : String → Option AccountStatus
  | "ACTIVE" => some .active
  | "COOLDOWN" => some .cooldown
  | "DEAD" => some .dead
  | "CHALLENGE" => some .challenge
  | "LOGIN_REQUIRED" => some .login_required
  | _ => none

/-- `InstagramAccount` from `app/models.py`. -/
structure InstagramAccount where
  username : String
  password : String
  proxy : Option String := none
  session_file : String := ""
  status : AccountStatus := .active
  last_used : Option ℚ := none
  operations_today : ℕ := 0
  health_score : ℚ := 100
  total_operations : ℕ := 0
  total_errors : ℕ := 0
  created_at : ℚ := 0
deriving DecidableEq, Repr

/-- `InstagramAccount.is_available` from `app/models.py`: ACTIVE status,
a hard-coded 120-minute (2-hour) cooldown since `last_used`, and a
hard-coded daily limit of 100 operations. -/
def is_available (now : ℚ) (acc : InstagramAccount) : Bool :=
  if acc.status ≠ AccountStatus.active then false
  else if (match acc.last_used with
           | some t => decide (now - t < 2)
           | none => false) then false
  else if 100 ≤ acc.operations_today then false
  else true

/-- `InstagramAccount.update_health_score` from `app/models.py`. -/
def update_health_score (success : Bool) (acc : InstagramAccount) : InstagramAccount :=
  if success then
    { acc with health_score := min 100 (acc.health_score + 1) }
  else
    { acc with health_score := max 0 (acc.health_score - 5),
               total_errors := acc.total_errors + 1 }

/-- `InstagramAccount.mark_used` from `app/models.py`. -/
def mark_used (now : ℚ) (acc : InstagramAccount) : InstagramAccount :=
  { acc with last_used := some now,
             operations_today := acc.operations_today + 1,
             total_operations := acc.total_operations + 1 }

/-- The two `Settings` fields from `app/config.py` that the embedded code
reads (env defaults: 120-minute cooldown, 100 daily operations). -/
structure Settings where
  account_cooldown_minutes : ℚ := 120
  max_daily_operations_per_account : ℕ := 100
deriving DecidableEq, Repr

/-- The default `Settings` (no environment overrides). -/
def defaultSettings : Settings := {}

/-- `calculate_score` from `AccountPool.get_available_account`
(`app/core/account_pool.py`). -/
def calculate_score (s : Settings) (now : ℚ) (account : InstagramAccount) : ℚ :=
  let health_weight := account.health_score / 100
  let time_weight : ℚ :=
    match account.last_used with
    | some t => min 1 ((now - t) / 24)
    | none => 1
  let usage_weight :=
    1 - (account.operations_today : ℚ) / (s.max_daily_operations_per_account : ℚ)
  health_weight * 0.4 + time_weight * 0.4 + usage_weight * 0.2

/-- The score formula exactly as the specification words it, to be compared
with `calculate_score`. -/
def score_spec (s : Settings) (now : ℚ) (account : InstagramAccount) : ℚ :=
  0.4 * (account.health_score / 100) +
  0.4 * (match account.last_used with
         | some t => min 1 ((now - t) / 24)
         | none => 1) +
  0.2 * (1 - (account.operations_today : ℚ) / (s.max_daily_operations_per_account : ℚ))

/-- Python `max(xs, key=f)` on the non-empty list `x :: xs`: keeps the current
best and replaces it only when a strictly larger key appears, so the first
maximal element wins. -/
def pyMaxByKey (key : InstagramAccount → ℚ) (x : InstagramAccount)
    (xs : List InstagramAccount) : InstagramAccount :=
  xs.foldl (fun best a => if key best < key a then a else best) x

/-- `AccountPool.get_available_account` from `app/core/account_pool.py`:
filter the pool by `is_available`; when the filtered list is empty, the
FALLBACK hands out the first ACTIVE account regardless of quota and cooldown;
otherwise return the maximum-score account. -/
def get_available_account (s : Settings) (now : ℚ)
    (accounts : List InstagramAccount) : Option InstagramAccount :=
  match accounts.filter (fun acc => is_available now acc) with
  | [] => accounts.find? (fun acc => decide (acc.status = AccountStatus.active))
  | b :: rest => some (pyMaxByKey (calculate_score s now) b rest)

/-- `AccountPool.mark_account_used` from `app/core/account_pool.py`, restricted
to its effect on the account: `mark_used`, then `update_health_score`, then the
transition to COOLDOWN when the daily limit is reached. -/
def mark_account_used (s : Settings) (now : ℚ) (success : Bool)
    (acc : InstagramAccount) : InstagramAccount :=
  let acc1 := update_health_score success (mark_used now acc)
  if s.max_daily_operations_per_account ≤ acc1.operations_today then
    { acc1 with status := AccountStatus.cooldown }
  else acc1

/-- The pool state: the in-memory account list plus a counter of `_save_pool`
persistence writes. -/
structure PoolState where
  accounts : List InstagramAccount
  saves : ℕ := 0
deriving DecidableEq, Repr

/-- Replace the first occurrence of `old` in the list by `new`, modelling the
in-place mutation of one account object held by the pool list. -/
def replaceFirst : List InstagramAccount → InstagramAccount → InstagramAccount →
    List InstagramAccount
  | [], _, _ => []
  | a :: rest, old, new =>
    if a = old then new :: rest else a :: replaceFirst rest old new

/-- `AccountPool.mark_account_used` at the pool level: updates the used account
in place and persists (`_save_pool`) once. -/
def pool_mark_account_used (s : Settings) (now : ℚ) (st : PoolState)
    (acc : InstagramAccount) (success : Bool) : PoolState :=
  { accounts := replaceFirst st.accounts acc (mark_account_used s now success acc),
    saves := st.saves + 1 }

/-- The calendar day of an instant (`datetime.date()` in the 24-hour model). -/
def pyDate (t : ℚ) : ℤ := ⌊t / 24⌋

/-- Outcome of `AccountPool._test_account_login` (an external authentication
probe): success, `ChallengeRequired` (sets CHALLENGE), another exception
(sets DEAD), or a falsy login return with no exception. -/
inductive ProbeResult where
  | ok
  | challengeRequired
  | deadError
  | failFalse
deriving DecidableEq, Repr

/-- The status side effect of a failed `_test_account_login` probe together
with its boolean result. -/
def probe_apply : ProbeResult → InstagramAccount → InstagramAccount × Bool
  | .ok, acc => (acc, true)
  | .challengeRequired, acc => ({ acc with status := AccountStatus.challenge }, false)
  | .deadError, acc => ({ acc with status := AccountStatus.dead }, false)
  | .failFalse, acc => (acc, false)

/-- The body of `AccountPool.health_check` for one account
(`app/core/account_pool.py`): daily reset of `operations_today` (with
un-cooldown), COOLDOWN exit after the configured window, and the
authentication-probe recovery of CHALLENGE / LOGIN_REQUIRED accounts with
health above 50. -/
def health_check_account (s : Settings) (now : ℚ)
    (probe : InstagramAccount → ProbeResult) (acc0 : InstagramAccount) :
    InstagramAccount :=
  let acc1 :=
    match acc0.last_used with
    | some t =>
      if pyDate t < pyDate now then
        let a := { acc0 with operations_today := 0 }
        if a.status = AccountStatus.cooldown then
          { a with status := AccountStatus.active }
        else a
      else acc0
    | none => acc0
  let acc2 :=
    if acc1.status = AccountStatus.cooldown then
      match acc1.last_used with
      | some t =>
        if s.account_cooldown_minutes / 60 ≤ now - t then
          { acc1 with status := AccountStatus.active }
        else acc1
      | none => acc1
    else acc1
  if (acc2.status = AccountStatus.challenge ∨
      acc2.status = AccountStatus.login_required) ∧ 50 < acc2.health_score then
    let r := probe_apply (probe acc2) acc2
    if r.2 then { r.1 with status := AccountStatus.active } else r.1
  else acc2

/-- `AccountPool.health_check` over the whole pool, persisting once at the
end. -/
def health_check (s : Settings) (now : ℚ)
    (probe : InstagramAccount → ProbeResult) (st : PoolState) : PoolState :=
  { accounts := st.accounts.map (health_check_account s now probe),
    saves := st.saves + 1 }

/-- The persisted wire snapshot of one account, as written by
`AccountPool._save_pool` (`acc.dict()` serialized with JSON): the status is
stored through its string value; timestamps are stored through `str()`, an
injective rendering of the instant that pydantic parses back, modelled here
by the instant itself. -/
structure AccountJson where
  username : String
  password : String
  proxy : Option String
  session_file : String
  status : String
  last_used : Option ℚ
  operations_today : ℕ
  health_score : ℚ
  total_operations : ℕ
  total_errors : ℕ
  created_at : ℚ
deriving DecidableEq, Repr

/-- `acc.dict()` as serialized by `_save_pool`. -/
def acc_dict (acc : InstagramAccount) : AccountJson :=
  { username := acc.username
    password := acc.password
    proxy := acc.proxy
    session_file := acc.session_file
    status := statusValue acc.status
    last_used := acc.last_used
    operations_today := acc.operations_today
    health_score := acc.health_score
    total_operations := acc.total_operations
    total_errors := acc.total_errors
    created_at := acc.created_at }

/-- `InstagramAccount(**acc_data)` validation performed by `_load_pool`: an
unknown status value is a pydantic validation error (`none`). -/
def acc_parse (j : AccountJson) : Option InstagramAccount :=
  match statusOfValue j.status with
  | none => none
  | some st =>
    some { username := j.username
           password := j.password
           proxy := j.proxy
           session_file := j.session_file
           status := st
           last_used := j.last_used
           operations_today := j.operations_today
           health_score := j.health_score
           total_operations := j.total_operations
           total_errors := j.total_errors
           created_at := j.created_at }

/-- `AccountPool._save_pool`: the list of snapshots written to the pool file. -/
def save_pool (accounts : List InstagramAccount) : List AccountJson :=
  accounts.map acc_dict

/-- `AccountPool._load_pool`: `none` models a missing file or a store whose
JSON cannot be decoded; a snapshot list is validated account by account, and
any validation exception leaves the pool empty. -/
def load_pool : Option (List AccountJson) → List InstagramAccount
  | none => []
  | some js =>
    match js.mapM acc_parse with
    | none => []
    | some accounts => accounts

/-- A feed media item as returned by the Gateway (`instagrapi` `Media`):
its key, its media type code and its optional capture time. -/
structure Media where
  pk : ℕ
  media_type : ℕ := 1
  taken_at : Option ℚ := none
deriving DecidableEq, Repr

/-- The recency filter loop of `MediaCollector._collect_feed_posts_safe`
(`app/core/media_collector.py`): scan the candidates in order; a post with a
capture time at or after the cutoff is kept (stopping right after the
requested maximum is reached); a post with no capture time or an older
capture time stops the scan. `k` is the number of posts already kept. -/
def feed_filter_go (cutoff : ℚ) (max_posts : ℕ) : ℕ → List Media → List Media
  | _, [] => []
  | k, m :: rest =>
    match m.taken_at with
    | some t =>
      if cutoff ≤ t then
        if max_posts ≤ k + 1 then [m]
        else m :: feed_filter_go cutoff max_posts (k + 1) rest
      else []
    | none => []

/-- `MediaCollector._collect_feed_posts_safe`: fetch at most
`min (max_posts * 5) 50` candidates from the profile feed (newest first),
return `[]` when there are none, else filter them to the last 24 hours. -/
def collect_feed_posts_safe (now : ℚ) (max_posts : ℕ)
    (profile_medias : List Media) : List Media :=
  let search_limit := min (max_posts * 5) 50
  let all_medias := profile_medias.take search_limit
  if all_medias.isEmpty then []
  else feed_filter_go (now - 24) max_posts 0 all_medias

/-- A Python argument that should be a `str`: either a string or a value of
another type (rejected by the `isinstance` validation). -/
inductive PyArg where
  | str (s : String)
  | nonStr
deriving DecidableEq, Repr

/-- A downloaded media payload (binary content and metadata are opaque to the
claims). -/
structure MediaFileM where
  id : String
deriving DecidableEq, Repr

/-- A story reference returned by the Gateway. -/
structure StoryRef where
  pk : ℕ
deriving DecidableEq, Repr

/-- The exception kind raised by a failing `AccountPool.get_client` login. -/
inductive ClientErrKind where
  | challengeRequired
  | loginRequired
  | otherError
deriving DecidableEq, Repr

/-- Outcome of `AccountPool.get_client` as an external effect. -/
inductive GetClientOutcome where
  | ok
  | err (kind : ClientErrKind)
deriving DecidableEq, Repr

/-- Outcome of `MediaCollector._get_user_info_safe`: a resolved profile id, a
`UserNotFound` signal (the error text mentions "not found", or no user came
back), or any other lookup failure re-raised as a generic exception. -/
inductive LookupOutcome where
  | found (pk : ℕ)
  | notFound
  | otherError (msg : String)
deriving DecidableEq, Repr

/-- The Remote Session Gateway oracle: every instagrapi interaction the
orchestrator performs, with per-item download failures already absorbed
(a skipped story yields `none`; a post yields the list of files that
survived). -/
structure Gateway where
  get_client : InstagramAccount → GetClientOutcome
  lookup_user : String → LookupOutcome
  user_stories : ℕ → List StoryRef
  download_story : StoryRef → Option MediaFileM
  user_medias : ℕ → List Media
  download_post : Media → List MediaFileM

/-- `CollectionResult` from `app/models.py`. -/
structure CollectionResult where
  username : PyArg
  timestamp : ℚ
  stories : List MediaFileM := []
  feed_posts : List MediaFileM := []
  success : Bool := true
  error_message : Option String := none
  account_used : Option String := none
deriving DecidableEq, Repr

/-- The status side effect of a failed `AccountPool.get_client`
(`app/core/account_pool.py`): health-score failure update, then a status
depending on the exception kind. -/
def get_client_fail_update (kind : ClientErrKind) (acc : InstagramAccount) :
    InstagramAccount :=
  let acc1 := update_health_score false acc
  match kind with
  | .challengeRequired => { acc1 with status := AccountStatus.challenge }
  | .loginRequired => { acc1 with status := AccountStatus.login_required }
  | .otherError => { acc1 with status := AccountStatus.dead }

/-- `MediaCollector.collect_user_media` (`app/core/media_collector.py`):
input validation, account acquisition, client acquisition, target lookup,
the optional stories and feed sections (whose internal failures are
swallowed), and outcome recording. The `except` handlers for `PrivateError`,
rate limiting and `LoginRequired` at the end of the source function are not
reachable through these steps: every exception raised inside the stories and
feed sections is caught by the section-level `except Exception` blocks. -/
def collect_user_media (gw : Gateway) (s : Settings) (now : ℚ)
    (username : PyArg) (include_stories include_feed : Bool)
    (max_feed_posts : ℕ) (st : PoolState) : CollectionResult × PoolState :=
  match username with
  | PyArg.nonStr =>
    ({ username := username, timestamp := now, success := false,
       error_message := some "Nome de usuário inválido" }, st)
  | PyArg.str uname =>
    if uname.isEmpty then
      ({ username := username, timestamp := now, success := false,
         error_message := some "Nome de usuário inválido" }, st)
    else
      match get_available_account s now st.accounts with
      | none =>
        ({ username := username, timestamp := now, success := false,
           error_message := some "Nenhuma conta disponível no pool" }, st)
      | some account =>
        match gw.get_client account with
        | GetClientOutcome.err kind =>
          ({ username := username, timestamp := now, success := false,
             error_message := some (String.append
               "Não foi possível obter cliente para " account.username) },
           { accounts := replaceFirst st.accounts account
               (get_client_fail_update kind account),
             saves := st.saves + 1 })
        | GetClientOutcome.ok =>
          match gw.lookup_user uname with
          | LookupOutcome.notFound =>
            ({ username := username, timestamp := now, success := false,
               error_message := some (String.append (String.append
                 "Usuário " uname) " não encontrado ou perfil privado"),
               account_used := some account.username },
             pool_mark_account_used s now st account true)
          | LookupOutcome.otherError msg =>
            ({ username := username, timestamp := now, success := false,
               error_message := some (String.append (String.append
                 (String.append "Erro ao buscar usuário " uname) ": ") msg),
               account_used := some account.username },
             pool_mark_account_used s now st account false)
          | LookupOutcome.found pk =>
            let story_files :=
              if include_stories then
                (gw.user_stories pk).filterMap gw.download_story
              else []
            let recent_posts :=
              if include_feed then
                collect_feed_posts_safe now max_feed_posts (gw.user_medias pk)
              else []
            let feed_files := (recent_posts.map gw.download_post).flatten
            ({ username := username, timestamp := now, success := true,
               stories := story_files, feed_posts := feed_files,
               account_used := some account.username },
             pool_mark_account_used s now st account true)

/-- A Python exception escaping the orchestrator. -/
inductive PyExc where
  | attributeError
deriving DecidableEq, Repr

/-- The `except LoginRequired` handler of `collect_user_media`
(`app/core/media_collector.py`, lines 220-227), embedded on its own: it
evaluates `AccountStatus.ERROR`, marks the account used with a failure
outcome, and returns the failed result — unless the attribute lookup itself
raises, in which case the exception escapes `collect_user_media`. -/
def login_required_handler (s : Settings) (now : ℚ) (acc : InstagramAccount)
    (result : CollectionResult) (st : PoolState) :
    Except PyExc (CollectionResult × PoolState) :=
  match accountStatusAttr "ERROR" with
  | none => Except.error PyExc.attributeError
  | some errStatus =>
    let acc1 := { acc with status := errStatus }
    Except.ok
      ({ result with
         success := false,
         error_message := some (String.append
           "Login requerido para conta " acc.username) },
       pool_mark_account_used s now st acc1 false)

/-! Concrete fixtures used by counterexamples and witnesses. Instants are in
hours; `now` is taken to be 1000 (or 2410 for the calendar-day scenarios). -/

/-- A healthy, never-used ACTIVE account (record A of the selection scenario). -/
def accA : InstagramAccount :=
  { username := "A", password := "pa", session_file := "sa", health_score := 100 }

/-- An ACTIVE account with health 50, last used one hour before `now = 1000`
(record B of the selection scenario). -/
def accB : InstagramAccount :=
  { username := "B", password := "pb", session_file := "sb",
    health_score := 50, last_used := some 999 }

/-- An ACTIVE account that has exhausted its daily quota of 100 operations. -/
def accQuota : InstagramAccount :=
  { username := "Q", password := "pq", session_file := "sq",
    operations_today := 100 }

/-- A fresh account with the initial health score of 100. -/
def accFresh : InstagramAccount :=
  { username := "F", password := "pf", session_file := "sf" }

/-- An ACTIVE account at the daily limit whose last use falls on the calendar
day before `now = 2410` (its day is 99, the day of 2410 is 100). -/
def accYesterday : InstagramAccount :=
  { username := "Y", password := "py", session_file := "sy",
    operations_today := 100, last_used := some 2395 }

/-- A COOLDOWN account whose last use falls on the calendar day before
`now = 2410`. -/
def accCooldownY : InstagramAccount :=
  { username := "C", password := "pc", session_file := "sc",
    status := AccountStatus.cooldown, operations_today := 37,
    last_used := some 2395 }

/-- A gateway whose client acquisition succeeds and whose target lookup
reports the user as not found or private. -/
def gwNotFound : Gateway :=
  { get_client := fun _ => GetClientOutcome.ok
    lookup_user := fun _ => LookupOutcome.notFound
    user_stories := fun _ => []
    download_story := fun _ => none
    user_medias := fun _ => []
    download_post := fun _ => [] }

/-- Six feed candidates captured one hour before `now = 100`. -/
def sixConcrete : List Media :=
  [{ pk := 1, taken_at := some 99 }, { pk := 2, taken_at := some 99 },
   { pk := 3, taken_at := some 99 }, { pk := 4, taken_at := some 99 },
   { pk := 5, taken_at := some 99 }, { pk := 6, taken_at := some 99 }]

/-- The seventh feed candidate, captured 25 hours before `now = 100`. -/
def c7Concrete : Media := { pk := 7, taken_at := some 75 }

/-- Forty-three further feed candidates behind the seventh one. -/
def tailConcrete : List Media := List.replicate 43 { pk := 8, taken_at := some 99 }

/-- A persisted snapshot whose status value is not one of the enum's values:
pydantic validation fails on it, so the store is corrupt. -/
def corruptJson : AccountJson :=
  { username := "x", password := "y", proxy := none, session_file := "s",
    status := "banned", last_used := none, operations_today := 0,
    health_score := 100, total_operations := 0, total_errors := 0,
    created_at := 0 }

/-! ## Helper lemmas -/

theorem foldl_argAux_eq_pyMaxByKey (key : InstagramAccount → ℚ) :
    ∀ (xs : List InstagramAccount) (x : InstagramAccount),
      xs.foldl (List.argAux fun b c => key c < key b) (some x) =
        some (pyMaxByKey key x xs)
  | [], _ => rfl
  | y :: ys, x => by
    rw [pyMaxByKey, List.foldl_cons, List.foldl_cons]
    have h1 : List.argAux (fun b c => key c < key b) (some x) y =
        some (if key x < key y then y else x) := by
      simp only [List.argAux]
      split <;> rfl
    rw [h1]
    exact foldl_argAux_eq_pyMaxByKey key ys (if key x < key y then y else x)

theorem argmax_eq_pyMaxByKey (key : InstagramAccount → ℚ)
    (x : InstagramAccount) (xs : List InstagramAccount) :
    List.argmax key (x :: xs) = some (pyMaxByKey key x xs) := by
  rw [List.argmax, List.foldl_cons]
  exact foldl_argAux_eq_pyMaxByKey key xs x

theorem max_zero_sub_collapse (x c : ℚ) (hc : 0 ≤ c) :
    max 0 (max 0 x - c) = max 0 (x - c) := by
  rcases le_total 0 x with h | h
  · rw [max_eq_right h]
  · rw [max_eq_left h, zero_sub, max_eq_left (by linarith), max_eq_left (by linarith)]

theorem probe_apply_ops (p : ProbeResult) (acc : InstagramAccount) :
    (probe_apply p acc).1.operations_today = acc.operations_today := by
  cases p <;> rfl

theorem feed_go_length (c : ℚ) (maxp : ℕ) :
    ∀ (l : List Media) (k : ℕ), k < maxp →
      (feed_filter_go c maxp k l).length ≤ maxp - k := by
  intro l
  induction l with
  | nil => intro k _; simp [feed_filter_go]
  | cons m rest ih =>
    intro k hk
    rw [feed_filter_go]
    rcases hm : m.taken_at with _ | t
    · simp
    · by_cases hr : c ≤ t
      · by_cases hb : maxp ≤ k + 1
        · simp only [hr, if_true, hb, if_pos]
          simp [List.length_cons]
          omega
        · simp only [hr, if_true, hb, if_neg, if_false]
          have h2 := ih (k + 1) (by omega)
          simp only [List.length_cons]
          omega
      · simp [hr]

theorem feed_go_take (c : ℚ) (maxp : ℕ) :
    ∀ (l : List Media) (k : ℕ), ∃ n, feed_filter_go c maxp k l = l.take n := by
  intro l
  induction l with
  | nil => intro k; exact ⟨0, rfl⟩
  | cons m rest ih =>
    intro k
    rcases hm : m.taken_at with _ | t
    · exact ⟨0, by simp [feed_filter_go, hm]⟩
    · by_cases hr : c ≤ t
      · by_cases hb : maxp ≤ k + 1
        · exact ⟨1, by simp [feed_filter_go, hm, hr, hb]⟩
        · obtain ⟨n, hn⟩ := ih (k + 1)
          exact ⟨n + 1, by simp [feed_filter_go, hm, hr, hb, hn]⟩
      · exact ⟨0, by simp [feed_filter_go, hm, hr]⟩

theorem feed_go_recent (c : ℚ) (maxp : ℕ) :
    ∀ (l : List Media) (k : ℕ) (m : Media), m ∈ feed_filter_go c maxp k l →
      ∃ t, m.taken_at = some t ∧ c ≤ t := by
  intro l
  induction l with
  | nil => intro k m h; simp [feed_filter_go] at h
  | cons x rest ih =>
    intro k m h
    rcases hm : x.taken_at with _ | t
    · simp [feed_filter_go, hm] at h
    · by_cases hr : c ≤ t
      · by_cases hb : maxp ≤ k + 1
        · simp [feed_filter_go, hm, hr, hb] at h
          subst h
          exact ⟨t, hm, hr⟩
        · simp only [feed_filter_go, hm, hr, if_true, hb, if_false] at h
          rcases List.mem_cons.1 h with rfl | h2
          · exact ⟨t, hm, hr⟩
          · exact ih (k + 1) m h2
      · simp [feed_filter_go, hm, hr] at h

theorem feed_go_append (c : ℚ) (maxp : ℕ) :
    ∀ (l r : List Media) (k : ℕ),
      (∀ m ∈ l, ∃ t, m.taken_at = some t ∧ c ≤ t) →
      k + l.length < maxp →
      feed_filter_go c maxp k (l ++ r) =
        l ++ feed_filter_go c maxp (k + l.length) r := by
  intro l
  induction l with
  | nil => intro r k _ _; simp
  | cons x rest ih =>
    intro r k hrec hlen
    obtain ⟨t, hx, hct⟩ := hrec x (List.mem_cons_self x rest)
    have hnb : ¬ maxp ≤ k + 1 := by
      simp only [List.length_cons] at hlen
      omega
    have harg : k + 1 + rest.length = k + (x :: rest).length := by
      simp only [List.length_cons]
      omega
    rw [List.cons_append]
    simp only [feed_filter_go, hx, hct, if_true, hnb, if_false]
    rw [ih r (k + 1) (fun m hm => hrec m (List.mem_cons_of_mem _ hm))
        (by simp only [List.length_cons] at hlen ⊢; omega),
      harg, List.cons_append]

/-! ## Claim theorems -/

/-- C1: the specification says `selectAvailable` never returns a record that
fails the eligibility predicate and returns none when no candidate is
eligible, with no bypass path. The code violates this: with a pool holding a
single ACTIVE account whose daily quota is exhausted (`is_available` is
false), the FALLBACK branch of `get_available_account` still hands the
account out instead of returning none. -/
theorem claim_C1_fallback_bypasses_eligibility :
    is_available 1000 accQuota = false ∧
    accQuota.status = AccountStatus.active ∧
    100 ≤ accQuota.operations_today ∧
    get_available_account defaultSettings 1000 [accQuota] = some accQuota := by
  refine ⟨by decide, by decide, by decide, ?_⟩
  norm_num [get_available_account, is_available, accQuota, List.filter, List.find?]

/-- C2: among eligible candidates the selection score is
`0.4 × (healthScore/100) + 0.4 × min(1, hoursSinceLastUse/24)
 + 0.2 × (1 − operationsToday/dailyLimit)` with time weight 1 when never
used; the candidate with the maximum score is returned, ties broken by
first-encountered order; and on the concrete pool [A, B] the selection
returns A. -/
theorem claim_C2_score_and_selection :
    (∀ (s : Settings) (now : ℚ) (acc : InstagramAccount),
        calculate_score s now acc = score_spec s now acc) ∧
    (∀ (s : Settings) (now : ℚ) (accounts : List InstagramAccount)
        (b : InstagramAccount) (rest : List InstagramAccount),
        accounts.filter (fun a => is_available now a) = b :: rest →
        ∃ m, get_available_account s now accounts = some m ∧
          m ∈ b :: rest ∧
          (∀ a ∈ b :: rest, calculate_score s now a ≤ calculate_score s now m) ∧
          (∀ a ∈ b :: rest, calculate_score s now m ≤ calculate_score s now a →
            (b :: rest).indexOf m ≤ (b :: rest).indexOf a)) ∧
    get_available_account defaultSettings 1000 [accA, accB] = some accA := by
  refine ⟨?_, ?_, ?_⟩
  · intro s now acc
    simp only [calculate_score, score_spec]
    cases acc.last_used <;> ring
  · intro s now accounts b rest hf
    refine ⟨pyMaxByKey (calculate_score s now) b rest, ?_, ?_, ?_, ?_⟩
    · simp only [get_available_account, hf]
    · exact List.argmax_mem (argmax_eq_pyMaxByKey _ b rest)
    · intro a ha
      exact List.le_of_mem_argmax ha (argmax_eq_pyMaxByKey _ b rest)
    · intro a ha hle
      exact List.index_of_argmax (argmax_eq_pyMaxByKey _ b rest) ha hle
  · norm_num [get_available_account, is_available, accA, accB, List.filter,
      pyMaxByKey]

/-- C2 witness: the selection properties instantiated on the concrete pool
[A, B] at `now = 1000`, where the eligible candidates are exactly [A]. -/
theorem claim_C2_witness :
    ∃ m, get_available_account defaultSettings 1000 [accA, accB] = some m ∧
      m ∈ [accA] ∧
      (∀ a ∈ [accA],
        calculate_score defaultSettings 1000 a ≤ calculate_score defaultSettings 1000 m) ∧
      (∀ a ∈ [accA],
        calculate_score defaultSettings 1000 m ≤ calculate_score defaultSettings 1000 a →
        [accA].indexOf m ≤ [accA].indexOf a) :=
  claim_C2_score_and_selection.2.1 defaultSettings 1000 [accA, accB] accA []
    (by norm_num [is_available, accA, accB, List.filter])

/-- C3: the specification says a re-authentication-required signal aborts the
run, records a failure outcome and forces the identity into an error status,
with only the failed result reaching the caller. The code violates this: its
`except LoginRequired` handler evaluates `AccountStatus.ERROR`, which is not
a member of the `AccountStatus` enum, so the handler itself raises
`AttributeError` and that exception escapes `collect_user_media`. -/
theorem claim_C3_reauth_handler_raises :
    accountStatusAttr "ERROR" = none ∧
    ∀ (s : Settings) (now : ℚ) (acc : InstagramAccount)
      (result : CollectionResult) (st : PoolState),
      login_required_handler s now acc result st =
        Except.error PyExc.attributeError :=
  ⟨rfl, fun _ _ _ _ _ => rfl⟩

/-- C5: the health-score update is `min(100, h+1)` on success and
`max(0, h−5)` with a `total_errors` increment on failure; iterating N
failures from the initial score 100 yields `max(0, 100 − 5N)`. -/
theorem claim_C5_health_score_rule :
    (∀ acc : InstagramAccount,
        (update_health_score true acc).health_score =
          min 100 (acc.health_score + 1)) ∧
    (∀ acc : InstagramAccount,
        (update_health_score false acc).health_score =
          max 0 (acc.health_score - 5) ∧
        (update_health_score false acc).total_errors = acc.total_errors + 1) ∧
    (∀ N : ℕ,
        ((update_health_score false)^[N] accFresh).health_score =
          max 0 (100 - 5 * (N : ℚ))) := by
  refine ⟨fun acc => rfl, fun acc => ⟨rfl, rfl⟩, ?_⟩
  intro N
  induction N with
  | zero => norm_num [accFresh]
  | succ n ih =>
    rw [Function.iterate_succ_apply']
    have h : ((update_health_score false)
        ((update_health_score false)^[n] accFresh)).health_score =
        max 0 (((update_health_score false)^[n] accFresh).health_score - 5) := rfl
    rw [h, ih, max_zero_sub_collapse _ 5 (by norm_num)]
    congr 1
    push_cast
    ring

/-- C6: `mark_account_used` sets `last_used` to now, increments
`operations_today` and `total_operations` by one, applies the health-score
rule (incrementing `total_errors` exactly on failure), moves the account to
COOLDOWN exactly when the incremented daily counter reaches the limit, and
the pool-level call persists state once. -/
theorem claim_C6_record_outcome :
    ∀ (s : Settings) (now : ℚ) (success : Bool) (acc : InstagramAccount)
      (st : PoolState),
      (mark_account_used s now success acc).last_used = some now ∧
      (mark_account_used s now success acc).operations_today =
        acc.operations_today + 1 ∧
      (mark_account_used s now success acc).total_operations =
        acc.total_operations + 1 ∧
      (mark_account_used s now success acc).health_score =
        (if success then min 100 (acc.health_score + 1)
         else max 0 (acc.health_score - 5)) ∧
      (mark_account_used s now success acc).total_errors =
        acc.total_errors + (if success then 0 else 1) ∧
      (mark_account_used s now success acc).status =
        (if s.max_daily_operations_per_account ≤ acc.operations_today + 1 then
          AccountStatus.cooldown
         else acc.status) ∧
      (pool_mark_account_used s now st acc success).saves = st.saves + 1 := by
  intro s now success acc st
  cases success <;>
    simp only [mark_account_used, mark_used, update_health_score,
      pool_mark_account_used, if_true, if_false, Bool.false_eq_true] <;>
    split_ifs <;>
    simp_all

/-- C7: the feed step fetches a candidate window of `min(requestedMax × 5, 50)`
posts (nothing beyond the window influences the result), keeps only posts
captured within the last 24 hours, returns a prefix of the candidates
(scanning newest-first and stopping at the first non-recent post), caps the
kept posts at the requested maximum, and on 50 candidates whose seventh item
is 25 hours old it keeps exactly items one to six whatever lies beyond the
seventh item. -/
theorem claim_C7_feed_window :
    (∀ (now : ℚ) (maxp : ℕ) (posts : List Media),
        collect_feed_posts_safe now maxp posts =
          collect_feed_posts_safe now maxp (posts.take (min (maxp * 5) 50))) ∧
    (∀ (now : ℚ) (maxp : ℕ) (posts : List Media),
        (collect_feed_posts_safe now maxp posts).length ≤ maxp) ∧
    (∀ (now : ℚ) (maxp : ℕ) (posts : List Media) (m : Media),
        m ∈ collect_feed_posts_safe now maxp posts →
        ∃ t, m.taken_at = some t ∧ now - 24 ≤ t) ∧
    (∀ (now : ℚ) (maxp : ℕ) (posts : List Media),
        ∃ n, collect_feed_posts_safe now maxp posts =
          (posts.take (min (maxp * 5) 50)).take n) ∧
    (∀ (now : ℚ) (six : List Media) (c7 : Media) (tail : List Media),
        six.length = 6 → tail.length = 43 →
        (∀ m ∈ six, ∃ t, m.taken_at = some t ∧ now - 24 ≤ t) →
        c7.taken_at = some (now - 25) →
        collect_feed_posts_safe now 10 (six ++ c7 :: tail) = six) := by
  refine ⟨?_, ?_, ?_, ?_, ?_⟩
  · intro now maxp posts
    simp [collect_feed_posts_safe, List.take_take]
  · intro now maxp posts
    rcases Nat.eq_zero_or_pos maxp with h0 | hpos
    · subst h0
      simp [collect_feed_posts_safe]
    · simp only [collect_feed_posts_safe]
      split
      · simp
      · have h := feed_go_length (now - 24) maxp
          (posts.take (min (maxp * 5) 50)) 0 hpos
        omega
  · intro now maxp posts m hm
    simp only [collect_feed_posts_safe] at hm
    split at hm
    · simp at hm
    · exact feed_go_recent (now - 24) maxp _ 0 m hm
  · intro now maxp posts
    simp only [collect_feed_posts_safe]
    split
    · exact ⟨0, rfl⟩
    · exact feed_go_take (now - 24) maxp _ 0
  · intro now six c7 tail h6 h43 hrec hc7
    have hlen : (six ++ c7 :: tail).length = 50 := by
      simp [h6, h43]
    have htake : (six ++ c7 :: tail).take (min (10 * 5) 50) = six ++ c7 :: tail := by
      apply List.take_of_length_le
      omega
    have hne : (six ++ c7 :: tail).isEmpty = false := by
      rcases six with _ | ⟨x, xs⟩ <;> rfl
    simp only [collect_feed_posts_safe, htake, hne, Bool.false_eq_true, if_false]
    rw [feed_go_append (now - 24) 10 six (c7 :: tail) 0 hrec (by omega)]
    have hstop : feed_filter_go (now - 24) 10 (0 + six.length) (c7 :: tail) = [] := by
      simp only [feed_filter_go, hc7]
      rw [if_neg (by linarith)]
    rw [hstop, List.append_nil]

/-- C7 witness: the stop-at-item-seven scenario instantiated on a concrete
candidate list of 50 posts at `now = 100`. -/
theorem claim_C7_witness :
    collect_feed_posts_safe 100 10 (sixConcrete ++ c7Concrete :: tailConcrete) =
      sixConcrete := by
  refine claim_C7_feed_window.2.2.2.2 100 sixConcrete c7Concrete tailConcrete
    rfl (by simp [tailConcrete]) ?_ ?_
  · intro m hm
    simp only [sixConcrete, List.mem_cons, List.not_mem_nil, or_false] at hm
    rcases hm with rfl | rfl | rfl | rfl | rfl | rfl <;>
      exact ⟨99, rfl, by norm_num⟩
  · show c7Concrete.taken_at = some (100 - 25)
    norm_num [c7Concrete]

/-- C8: after one `health_check`, every account whose last-used calendar day
precedes today has `operations_today` reset to 0 and, if it was in COOLDOWN,
is back to ACTIVE; in particular an ACTIVE account with 100 operations and a
`last_used` dated yesterday is eligible again (the cooldown window having
elapsed), whatever the authentication probe answers. -/
theorem claim_C8_daily_reset :
    (∀ (s : Settings) (now : ℚ) (probe : InstagramAccount → ProbeResult)
        (st : PoolState),
        (health_check s now probe st).accounts =
          st.accounts.map (health_check_account s now probe)) ∧
    (∀ (s : Settings) (now : ℚ) (probe : InstagramAccount → ProbeResult)
        (acc : InstagramAccount) (t : ℚ),
        acc.last_used = some t → pyDate t < pyDate now →
        (health_check_account s now probe acc).operations_today = 0 ∧
        (acc.status = AccountStatus.cooldown →
          (health_check_account s now probe acc).status = AccountStatus.active)) ∧
    (∀ probe : InstagramAccount → ProbeResult,
        is_available 2410
          (health_check_account defaultSettings 2410 probe accYesterday) = true) := by
  refine ⟨fun _ _ _ _ => rfl, ?_, ?_⟩
  · intro s now probe acc t hlast hday
    by_cases hs : acc.status = AccountStatus.cooldown
    · constructor
      · simp [health_check_account, hlast, hday, hs, probe_apply_ops]
      · intro _
        simp [health_check_account, hlast, hday, hs]
    · constructor
      · simp only [health_check_account, hlast, hday, if_true, hs, if_false]
        split_ifs <;> simp_all [probe_apply_ops]
      · intro h
        exact absurd h hs
  · intro probe
    have h1 : pyDate 2395 = 99 := by norm_num [pyDate]
    have h2 : pyDate 2410 = 100 := by norm_num [pyDate]
    have hres : health_check_account defaultSettings 2410 probe accYesterday =
        { accYesterday with operations_today := 0 } := by
      simp [health_check_account, accYesterday, h1, h2]
    rw [hres]
    simp only [is_available, accYesterday]
    norm_num

/-- C8 witness: the reset applied to a concrete COOLDOWN account at 37
operations whose last use was on the previous calendar day. -/
theorem claim_C8_witness :
    (health_check_account defaultSettings 2410 (fun _ => ProbeResult.ok)
        accCooldownY).operations_today = 0 ∧
    (health_check_account defaultSettings 2410 (fun _ => ProbeResult.ok)
        accCooldownY).status = AccountStatus.active := by
  have h := claim_C8_daily_reset.2.1 defaultSettings 2410
    (fun _ => ProbeResult.ok) accCooldownY 2395 rfl (by norm_num [pyDate])
  exact ⟨h.1, h.2 rfl⟩

theorem acc_parse_dict (a : InstagramAccount) : acc_parse (acc_dict a) = some a := by
  cases a with
  | mk u p pr sf st lu ot hs tot te ca => cases st <;> rfl

theorem mapM_acc_parse_dict :
    ∀ l : List InstagramAccount, (l.map acc_dict).mapM acc_parse = some l := by
  intro l
  induction l with
  | nil => rfl
  | cons a rest ih =>
    rw [List.map_cons, List.mapM_cons, acc_parse_dict, ih]
    rfl

/-- C9: persisting a pool of records and reloading it yields records with
identical field values (secrets included); loading a missing or corrupt
store yields an empty pool. -/
theorem claim_C9_roundtrip :
    (∀ accounts : List InstagramAccount,
        load_pool (some (save_pool accounts)) = accounts) ∧
    load_pool none = [] ∧
    load_pool (some [corruptJson]) = [] := by
  refine ⟨?_, rfl, rfl⟩
  intro accounts
  simp only [load_pool, save_pool, mapM_acc_parse_dict]

/-- C10: calling the orchestrator with a non-string or empty target username
returns a failed result and leaves the pool state untouched: no account is
selected, no account field changes, and no persistence write happens. -/
theorem claim_C10_invalid_username_frame :
    ∀ (gw : Gateway) (s : Settings) (now : ℚ) (incS incF : Bool)
      (maxp : ℕ) (st : PoolState),
      (collect_user_media gw s now PyArg.nonStr incS incF maxp st).2 = st ∧
      (collect_user_media gw s now PyArg.nonStr incS incF maxp st).1.success = false ∧
      (collect_user_media gw s now PyArg.nonStr incS incF maxp st).1.account_used = none ∧
      (collect_user_media gw s now PyArg.nonStr incS incF maxp st).1.error_message =
        some "Nome de usuário inválido" ∧
      (collect_user_media gw s now (PyArg.str "") incS incF maxp st).2 = st ∧
      (collect_user_media gw s now (PyArg.str "") incS incF maxp st).1.success = false ∧
      (collect_user_media gw s now (PyArg.str "") incS incF maxp st).1.account_used = none ∧
      (collect_user_media gw s now (PyArg.str "") incS incF maxp st).1.error_message =
        some "Nome de usuário inválido" :=
  fun _ _ _ _ _ _ _ => ⟨rfl, rfl, rfl, rfl, rfl, rfl, rfl, rfl⟩

/-- C4: when the Gateway reports the target as not found or private, the run
returns a failed result classified by the not-found-or-private message, while
the identity used is recorded with a success outcome, so its health score
becomes `min(100, h + 1)`. -/
theorem claim_C4_target_unavailable :
    ∀ (gw : Gateway) (s : Settings) (now : ℚ) (uname : String)
      (incS incF : Bool) (maxp : ℕ) (st : PoolState) (account : InstagramAccount),
      uname.isEmpty = false →
      get_available_account s now st.accounts = some account →
      gw.get_client account = GetClientOutcome.ok →
      gw.lookup_user uname = LookupOutcome.notFound →
      (collect_user_media gw s now (PyArg.str uname) incS incF maxp st).1.success = false ∧
      (collect_user_media gw s now (PyArg.str uname) incS incF maxp st).1.error_message =
        some (String.append (String.append "Usuário " uname)
          " não encontrado ou perfil privado") ∧
      (collect_user_media gw s now (PyArg.str uname) incS incF maxp st).1.account_used =
        some account.username ∧
      (collect_user_media gw s now (PyArg.str uname) incS incF maxp st).2 =
        pool_mark_account_used s now st account true ∧
      (mark_account_used s now true account).health_score =
        min 100 (account.health_score + 1) := by
  intro gw s now uname incS incF maxp st account hne hget hcl hlk
  have hred : collect_user_media gw s now (PyArg.str uname) incS incF maxp st =
      ({ username := PyArg.str uname, timestamp := now, success := false,
         error_message := some (String.append (String.append "Usuário " uname)
           " não encontrado ou perfil privado"),
         account_used := some account.username },
       pool_mark_account_used s now st account true) := by
    simp [collect_user_media, hne, hget, hcl, hlk]
  rw [hred]
  refine ⟨rfl, rfl, rfl, rfl, ?_⟩
  simp only [mark_account_used, update_health_score, mark_used]
  split_ifs <;> rfl

/-- C4 witness: the not-found path on a concrete pool of one healthy account
with the `gwNotFound` gateway. -/
theorem claim_C4_witness :
    (collect_user_media gwNotFound defaultSettings 1000 (PyArg.str "target")
        true false 10 { accounts := [accA], saves := 0 }).1.success = false ∧
    (collect_user_media gwNotFound defaultSettings 1000 (PyArg.str "target")
        true false 10 { accounts := [accA], saves := 0 }).1.error_message =
      some (String.append (String.append "Usuário " "target")
        " não encontrado ou perfil privado") ∧
    (collect_user_media gwNotFound defaultSettings 1000 (PyArg.str "target")
        true false 10 { accounts := [accA], saves := 0 }).1.account_used =
      some accA.username ∧
    (collect_user_media gwNotFound defaultSettings 1000 (PyArg.str "target")
        true false 10 { accounts := [accA], saves := 0 }).2 =
      pool_mark_account_used defaultSettings 1000
        { accounts := [accA], saves := 0 } accA true ∧
    (mark_account_used defaultSettings 1000 true accA).health_score =
      min 100 (accA.health_score + 1) :=
  claim_C4_target_unavailable gwNotFound defaultSettings 1000 "target"
    true false 10 { accounts := [accA], saves := 0 } accA rfl
    (by norm_num [get_available_account, is_available, accA, List.filter, pyMaxByKey])
    rfl rfl

end InstagramExtractor
